import Mathlib

/-!
Verification of the AMQP 0-9-1 handshake script `testrabbit.py`.

The script is embedded shallowly: bytes are `List Nat` (each entry < 256 on
the wire), `struct.pack` calls become `Option (List Nat)`-valued functions
(`none` models the `struct.error` raised when a value does not fit the
requested field width), and the module-level straight-line program becomes an
explicit event trace over a response oracle `Nat → List Nat` giving the bytes
returned by each successive `socket.recv` call.
-/

namespace TestRabbit

/-- Big-endian 2-byte encoding of `n` (meaningful for `n < 2^16`),
as produced by `struct.pack('!H', n)`. -/
def u16be (n : Nat) : List Nat := [n / 256, n % 256]

/-- Big-endian 4-byte encoding of `n` (meaningful for `n < 2^32`),
as produced by `struct.pack('!I', n)`. -/
def u32be (n : Nat) : List Nat :=
  [n / 16777216, n / 65536 % 256, n / 256 % 256, n % 256]

/-- Model of `struct.pack('!B', n)`: one byte, or a `struct.error` (`none`)
when `n` does not fit in 8 bits. -/
def packB (n : Nat) : Option (List Nat) :=
  if n < 256 then some [n] else none

/-- Model of `struct.pack('!H', n)`: two big-endian bytes, or `none` when `n`
does not fit in 16 bits. -/
def packH (n : Nat) : Option (List Nat) :=
  if n < 65536 then some (u16be n) else none

/-- Model of `struct.pack('!I', n)`: four big-endian bytes, or `none` when `n`
does not fit in 32 bits. -/
def packI (n : Nat) : Option (List Nat) :=
  if n < 4294967296 then some (u32be n) else none

/-- The helper `send_frame(sock, frame_type, channel, payload)` of `testrabbit.py`:
`struct.pack('!BHI', frame_type, channel, len(payload)) + payload + b'\xCE'`.
Returns the bytes written to the socket, or `none` when `struct.pack`
raises. -/
def send_frame (frame_type channel : Nat) (payload : List Nat) : Option (List Nat) :=
  match packB frame_type, packH channel, packI payload.length with
  | some tb, some cb, some lb => some (tb ++ cb ++ lb ++ payload ++ [0xCE])
  | _, _, _ => none

/-- The pure shape of a successfully packed frame:
`[type:1][channel:2][length:4][payload][0xCE]`. -/
def frameBytes (frame_type channel : Nat) (payload : List Nat) : List Nat :=
  frame_type :: (u16be channel ++ (u32be payload.length ++ (payload ++ [0xCE])))

/-- Python `sep.join(parts)` on byte strings. -/
def joinSep (sep : List Nat) : List (List Nat) → List Nat
  | [] => []
  | [x] => x
  | x :: xs => x ++ sep ++ joinSep sep xs

/-- The SASL PLAIN blob the script builds at lines 26–29:
`b"\0".join([authzid, authcid, passwd])`. -/
def build_plain_response (authzid authcid password : List Nat) : List Nat :=
  joinSep [0] [authzid, authcid, password]

/-- Configuration constants of the script (`USER`, `PASS`, `VHOST`, `QUEUE`),
already `.encode()`d to byte strings. -/
structure Config where
  user : List Nat
  pass : List Nat
  vhost : List Nat
  queue : List Nat

/-- The protocol header sent first: `b"AMQP\x00\x00\x09\x01"`. -/
def amqpHeader : List Nat := [65, 77, 81, 80, 0, 0, 9, 1]

/-- Bytes of `b'\x00\x0cPLAIN'` (the script's hardcoded mechanism blob). -/
def plainMech : List Nat := [0, 12, 80, 76, 65, 73, 78]

/-- connection.start-ok method payload (lines 30–35):
`struct.pack('!HH', 10, 11)` + mechanism blob + `struct.pack('!I', len(resp))`
+ resp + `b'\x00'`; `none` when the length does not fit 32 bits. -/
def startOkFrame (c : Config) : Option (List Nat) :=
  let resp := build_plain_response c.user c.user c.pass
  match packI resp.length with
  | none => none
  | some lb => send_frame 1 0 ([0, 10, 0, 11] ++ (plainMech ++ lb ++ resp ++ [0]))

/-- connection.open method frame (lines 42–44):
`struct.pack('!HHB', 10, 40, len(args)) + args + b'\x00\x00'` wrapped by
`send_frame`; `none` when `len(VHOST)` exceeds 255. -/
def openFrame (c : Config) : Option (List Nat) :=
  match packB c.vhost.length with
  | none => none
  | some lb => send_frame 1 0 ([0, 10, 0, 40] ++ lb ++ c.vhost ++ [0, 0])

/-- channel.open frame (line 48): `send_frame(s, 1, 1, struct.pack('!HH', 20, 10))`. -/
def channelOpenFrame : Option (List Nat) :=
  send_frame 1 1 [0, 20, 0, 10]

/-- queue.declare method payload (lines 52–58):
`struct.pack('!HHH', 50, 10, 1) + b'\x00' + struct.pack('!B', len(qname))
+ qname + struct.pack('!B', 0b00001000)`; `none` when `len(QUEUE)`
exceeds 255. -/
def queueDeclareFrame (c : Config) : Option (List Nat) :=
  match packB c.queue.length with
  | none => none
  | some lb =>
    send_frame 1 1 ([0, 50, 0, 10, 0, 1] ++ [0] ++ lb ++ c.queue ++ [0b00001000])

/-- One observable I/O event of the script: bytes written by `sendall`, or
bytes returned by a `recv`. -/
inductive Event where
  | send : List Nat → Event
  | recv : List Nat → Event
deriving DecidableEq, Repr

/-- Outcome of running the script: the full event trace, or the partial trace
performed before an uncaught `struct.error` aborted the run. -/
inductive RunResult where
  | ok : List Event → RunResult
  | err : List Event → RunResult
deriving DecidableEq, Repr

/-- The events performed by a run, successful or aborted. -/
def RunResult.events : RunResult → List Event
  | .ok t => t
  | .err t => t

/-- The byte strings sent, in order, in a trace. -/
def sendsOf (t : List Event) : List (List Nat) :=
  t.filterMap fun e => match e with | .send b => some b | .recv _ => none

/-- The byte strings sent, in order, by a run. -/
def runSends (res : RunResult) : List (List Nat) := sendsOf res.events

/-- The module-level program of `testrabbit.py` (lines 17–64), as a trace over
a response oracle `resp` giving the bytes each successive `s.recv(4096)`
returns.  Frame construction happens between the preceding `recv` and the
frame's own `sendall`, so a `struct.error` aborts the run at exactly that
point with the prefix trace. -/
def clientRun (c : Config) (resp : Nat → List Nat) : RunResult :=
  let t0 := [Event.send amqpHeader, Event.recv (resp 0)]
  match startOkFrame c with
  | none => .err t0
  | some f1 =>
    let t1 := t0 ++ [Event.send f1, Event.recv (resp 1)]
    match openFrame c with
    | none => .err t1
    | some f2 =>
      let t2 := t1 ++ [Event.send f2, Event.recv (resp 2)]
      match channelOpenFrame with
      | none => .err t2
      | some f3 =>
        let t3 := t2 ++ [Event.send f3, Event.recv (resp 3)]
        match queueDeclareFrame c with
        | none => .err t3
        | some f4 =>
          .ok (t3 ++ [Event.send f4, Event.recv (resp 4)])

/-- connection.start-ok method payload as plain bytes (defined for
configurations where no pack fails). -/
def startOkMethodBytes (c : Config) : List Nat :=
  [0, 10, 0, 11] ++
    (plainMech ++ u32be (build_plain_response c.user c.user c.pass).length ++
      build_plain_response c.user c.user c.pass ++ [0])

/-- connection.start-ok frame as plain bytes. -/
def startOkFrameBytes (c : Config) : List Nat :=
  frameBytes 1 0 (startOkMethodBytes c)

/-- connection.open method payload as plain bytes. -/
def openMethodBytes (c : Config) : List Nat :=
  [0, 10, 0, 40] ++ [c.vhost.length] ++ c.vhost ++ [0, 0]

/-- connection.open frame as plain bytes. -/
def openFrameBytes (c : Config) : List Nat :=
  frameBytes 1 0 (openMethodBytes c)

/-- channel.open frame as plain bytes. -/
def channelOpenFrameBytes : List Nat :=
  frameBytes 1 1 [0, 20, 0, 10]

/-- queue.declare method payload as plain bytes. -/
def queueDeclareMethodBytes (c : Config) : List Nat :=
  [0, 50, 0, 10, 0, 1] ++ [0] ++ [c.queue.length] ++ c.queue ++ [0b00001000]

/-- queue.declare frame as plain bytes. -/
def queueDeclareFrameBytes (c : Config) : List Nat :=
  frameBytes 1 1 (queueDeclareMethodBytes c)

/-- The class id and method id carried by a method frame: big-endian shorts at
payload offsets 0–3, i.e. frame offsets 7–10. -/
def frameMethod (bs : List Nat) : Nat × Nat :=
  (bs.getD 7 0 * 256 + bs.getD 8 0, bs.getD 9 0 * 256 + bs.getD 10 0)

/-- The full event trace of a run on which no `struct.pack` fails. -/
def fullTrace (c : Config) (resp : Nat → List Nat) : List Event :=
  [Event.send amqpHeader, Event.recv (resp 0),
   Event.send (startOkFrameBytes c), Event.recv (resp 1),
   Event.send (openFrameBytes c), Event.recv (resp 2),
   Event.send channelOpenFrameBytes, Event.recv (resp 3),
   Event.send (queueDeclareFrameBytes c), Event.recv (resp 4)]

/-- The sequence of byte strings the script sends, as a function of the
configuration alone, with the same abort points as `clientRun`. -/
def clientSendsPure (c : Config) : List (List Nat) :=
  match startOkFrame c with
  | none => [amqpHeader]
  | some f1 =>
    match openFrame c with
    | none => [amqpHeader, f1]
    | some f2 =>
      match channelOpenFrame with
      | none => [amqpHeader, f1, f2]
      | some f3 =>
        match queueDeclareFrame c with
        | none => [amqpHeader, f1, f2, f3]
        | some f4 => [amqpHeader, f1, f2, f3, f4]

theorem send_frame_eq (ft ch : Nat) (p : List Nat) (h1 : ft < 256)
    (h2 : ch < 65536) (h3 : p.length < 4294967296) :
    send_frame ft ch p = some (frameBytes ft ch p) := by
  simp [send_frame, packB, packH, packI, h1, h2, h3, frameBytes, u16be, u32be]

theorem startOkFrame_eq (c : Config)
    (hA : 2 * c.user.length + c.pass.length + 18 < 4294967296) :
    startOkFrame c = some (startOkFrameBytes c) := by
  have hresp : (build_plain_response c.user c.user c.pass).length =
      2 * c.user.length + c.pass.length + 2 := by
    simp [build_plain_response, joinSep]
    omega
  have h1 : (build_plain_response c.user c.user c.pass).length < 4294967296 := by
    omega
  rw [startOkFrame, packI, if_pos h1]
  show send_frame 1 0
      ([0, 10, 0, 11] ++
        (plainMech ++ u32be (build_plain_response c.user c.user c.pass).length ++
          build_plain_response c.user c.user c.pass ++ [0])) =
    some (startOkFrameBytes c)
  rw [send_frame_eq _ _ _ (by omega) (by omega) (by simp [plainMech, u32be]; omega)]
  simp [startOkFrameBytes, startOkMethodBytes, List.append_assoc]

theorem openFrame_eq (c : Config) (hv : c.vhost.length ≤ 255) :
    openFrame c = some (openFrameBytes c) := by
  rw [openFrame, packB, if_pos (by omega)]
  show send_frame 1 0 ([0, 10, 0, 40] ++ [c.vhost.length] ++ c.vhost ++ [0, 0]) =
    some (openFrameBytes c)
  rw [send_frame_eq _ _ _ (by omega) (by omega) (by simp; omega)]
  simp [openFrameBytes, openMethodBytes, List.append_assoc]

theorem channelOpenFrame_eq : channelOpenFrame = some channelOpenFrameBytes := by
  decide

theorem queueDeclareFrame_eq (c : Config) (hq : c.queue.length ≤ 255) :
    queueDeclareFrame c = some (queueDeclareFrameBytes c) := by
  rw [queueDeclareFrame, packB, if_pos (by omega)]
  show send_frame 1 1
      ([0, 50, 0, 10, 0, 1] ++ [0] ++ [c.queue.length] ++ c.queue ++ [0b00001000]) =
    some (queueDeclareFrameBytes c)
  rw [send_frame_eq _ _ _ (by omega) (by omega) (by simp; omega)]
  simp [queueDeclareFrameBytes, queueDeclareMethodBytes, List.append_assoc]

theorem clientRun_ok (c : Config) (resp : Nat → List Nat)
    (hA : 2 * c.user.length + c.pass.length + 18 < 4294967296)
    (hv : c.vhost.length ≤ 255) (hq : c.queue.length ≤ 255) :
    clientRun c resp = RunResult.ok (fullTrace c resp) := by
  rw [clientRun]
  rw [startOkFrame_eq c hA, openFrame_eq c hv, channelOpenFrame_eq,
    queueDeclareFrame_eq c hq]
  simp [fullTrace]

theorem runSends_eq_pure (c : Config) (resp : Nat → List Nat) :
    runSends (clientRun c resp) = clientSendsPure c := by
  rw [clientRun, clientSendsPure]
  cases startOkFrame c <;> cases openFrame c <;> cases channelOpenFrame <;>
    cases queueDeclareFrame c <;>
    simp [runSends, RunResult.events, sendsOf]

/-- Result of decoding a frame envelope. -/
inductive DecodeResult where
  | frame : Nat → Nat → List Nat → DecodeResult
  | needMoreBytes : DecodeResult
  | malformedFrame : DecodeResult
deriving DecidableEq, Repr

/-- The 32-bit big-endian length field a frame declares at offsets 3–6. -/
def declaredLen (bs : List Nat) : Nat :=
  bs.getD 3 0 * 16777216 + bs.getD 4 0 * 65536 + bs.getD 5 0 * 256 + bs.getD 6 0

/-- Modelled from the spec: a frame decoder is absent from the source (the
script only implements the encoder `send_frame` and discards received bytes);
§4.1 specifies `decode(bytes) -> Frame | NeedMoreBytes | MalformedFrame` over
the envelope `[type:1][channel:2][length:4][payload][0xCE]`: `NeedMoreBytes`
when fewer bytes are available than the declared length, `MalformedFrame`
when the terminator byte is not 0xCE. -/
def decode (bs : List Nat) : DecodeResult :=
  if bs.length < 7 then .needMoreBytes
  else if bs.length < declaredLen bs + 8 then .needMoreBytes
  else if bs.getD (declaredLen bs + 7) 0 ≠ 0xCE then .malformedFrame
  else .frame (bs.getD 0 0) (bs.getD 1 0 * 256 + bs.getD 2 0)
    ((bs.drop 7).take (declaredLen bs))

set_option maxRecDepth 4096 in
theorem frameMethod_startOk (c : Config) :
    frameMethod (startOkFrameBytes c) = (10, 11) := rfl

set_option maxRecDepth 4096 in
theorem frameMethod_open (c : Config) :
    frameMethod (openFrameBytes c) = (10, 40) := rfl

theorem frameMethod_chanOpen : frameMethod channelOpenFrameBytes = (20, 10) := rfl

set_option maxRecDepth 4096 in
theorem frameMethod_qdecl (c : Config) :
    frameMethod (queueDeclareFrameBytes c) = (50, 10) := rfl

theorem frameMethod_header : frameMethod amqpHeader = (256, 0) := rfl

/-- An example configuration: user "u", password "p", vhost "/", queue "q". -/
def cfg0 : Config := ⟨[117], [112], [47], [113]⟩

/-- A response oracle on which every `recv` returns empty bytes. -/
def respEmpty : Nat → List Nat := fun _ => []

/-- A response oracle modelling a server that answers the protocol header but
closes the socket after receiving start-ok: the second and all later `recv`
calls return empty bytes. -/
def respClosedAfterStartOk : Nat → List Nat :=
  fun i => if i = 0 then [1, 0, 0] else []

/-- A configuration whose vhost encodes to 256 bytes. -/
def cfgBigVhost : Config := ⟨[117], [112], List.replicate 256 47, [113]⟩

theorem decode_frameBytes (ft ch : Nat) (p : List Nat)
    (h3 : p.length < 4294967296) :
    decode (frameBytes ft ch p) = DecodeResult.frame ft ch p := by
  have hb : frameBytes ft ch p =
      [ft, ch / 256, ch % 256, p.length / 16777216, p.length / 65536 % 256,
        p.length / 256 % 256, p.length % 256] ++ (p ++ [0xCE]) := rfl
  rw [hb]
  set A : List Nat :=
    [ft, ch / 256, ch % 256, p.length / 16777216, p.length / 65536 % 256,
      p.length / 256 % 256, p.length % 256] with hA
  have hAlen : A.length = 7 := rfl
  have hlen : (A ++ (p ++ [0xCE])).length = p.length + 8 := by
    simp [hA]
  have hdecl : declaredLen (A ++ (p ++ [0xCE])) = p.length := by
    show p.length / 16777216 * 16777216 + p.length / 65536 % 256 * 65536 +
      p.length / 256 % 256 * 256 + p.length % 256 = p.length
    omega
  have hterm : (A ++ (p ++ [0xCE])).getD (p.length + 7) 0 = 0xCE := by
    rw [List.getD_append_right _ _ _ _ (by omega), hAlen]
    have : p.length + 7 - 7 = p.length := by omega
    rw [this, List.getD_append_right _ _ _ _ (Nat.le_refl _), Nat.sub_self]
    rfl
  rw [decode, hdecl, hlen]
  rw [if_neg (by omega), if_neg (by omega)]
  rw [hterm]
  rw [if_neg (by simp)]
  have hdrop : (A ++ (p ++ [0xCE])).drop 7 = p ++ [0xCE] := by
    rw [← hAlen, List.drop_left]
  have htake : (p ++ [0xCE]).take p.length = p := List.take_left' rfl
  rw [hdrop, htake]
  have hch : (A ++ (p ++ [0xCE])).getD 1 0 * 256 + (A ++ (p ++ [0xCE])).getD 2 0 =
      ch := by
    show ch / 256 * 256 + ch % 256 = ch
    omega
  have hft : (A ++ (p ++ [0xCE])).getD 0 0 = ft := rfl
  rw [hch, hft]

/-! ## Claim theorems -/

/-- C1: for every frame_type, channel and payload that fit their field widths,
`send_frame` emits exactly `[type:1][channel:2][length:4][payload][0xCE]` in
network byte order, the 4-byte length field equal to the payload length and
the final byte the terminator 0xCE. -/
theorem send_frame_envelope (ft ch : Nat) (p : List Nat) (h1 : ft < 256)
    (h2 : ch < 65536) (h3 : p.length < 4294967296) :
    send_frame ft ch p =
      some ([ft] ++ u16be ch ++ u32be p.length ++ p ++ [0xCE]) := by
  rw [send_frame_eq ft ch p h1 h2 h3]
  simp [frameBytes, List.append_assoc]

/-- Witness for C1 at frame type 1, channel 0, empty payload. -/
theorem send_frame_envelope_witness :
    1 < 256 ∧ 0 < 65536 ∧ ([] : List Nat).length < 4294967296 ∧
      send_frame 1 0 [] = some ([1] ++ u16be 0 ++ u32be 0 ++ [] ++ [0xCE]) :=
  ⟨by decide, by decide, by decide,
    send_frame_envelope 1 0 [] (by decide) (by decide) (by decide)⟩

/-- C2: the script sends, in this exact order, the protocol header
`AMQP\x00\x00\x09\x01`, connection.start-ok (10,11), connection.open (10,40),
channel.open (20,10) and queue.declare (50,10), with exactly one blocking
receive between consecutive sends, and never sends any other method frame —
in particular no connection.tune-ok (10,31). -/
theorem handshake_sequence (c : Config) (r : Nat → List Nat)
    (hA : 2 * c.user.length + c.pass.length + 18 < 4294967296)
    (hv : c.vhost.length ≤ 255) (hq : c.queue.length ≤ 255) :
    (clientRun c r).events =
      [Event.send amqpHeader, Event.recv (r 0),
       Event.send (startOkFrameBytes c), Event.recv (r 1),
       Event.send (openFrameBytes c), Event.recv (r 2),
       Event.send channelOpenFrameBytes, Event.recv (r 3),
       Event.send (queueDeclareFrameBytes c), Event.recv (r 4)] ∧
    amqpHeader = [65, 77, 81, 80, 0, 0, 9, 1] ∧
    frameMethod (startOkFrameBytes c) = (10, 11) ∧
    frameMethod (openFrameBytes c) = (10, 40) ∧
    frameMethod channelOpenFrameBytes = (20, 10) ∧
    frameMethod (queueDeclareFrameBytes c) = (50, 10) ∧
    ∀ b ∈ runSends (clientRun c r), frameMethod b ≠ (10, 31) := by
  refine ⟨?_, rfl, frameMethod_startOk c, frameMethod_open c, frameMethod_chanOpen,
    frameMethod_qdecl c, ?_⟩
  · rw [clientRun_ok c r hA hv hq]
    rfl
  · intro b hb
    rw [clientRun_ok c r hA hv hq] at hb
    simp [runSends, RunResult.events, sendsOf, fullTrace] at hb
    rcases hb with hb | hb | hb | hb | hb <;> subst hb
    · rw [frameMethod_header]; decide
    · rw [frameMethod_startOk]; decide
    · rw [frameMethod_open]; decide
    · rw [frameMethod_chanOpen]; decide
    · rw [frameMethod_qdecl]; decide

/-- Witness for C2 at the example configuration with empty responses. -/
theorem handshake_sequence_witness :
    (2 * cfg0.user.length + cfg0.pass.length + 18 < 4294967296 ∧
      cfg0.vhost.length ≤ 255 ∧ cfg0.queue.length ≤ 255) ∧
    ((clientRun cfg0 respEmpty).events =
      [Event.send amqpHeader, Event.recv (respEmpty 0),
       Event.send (startOkFrameBytes cfg0), Event.recv (respEmpty 1),
       Event.send (openFrameBytes cfg0), Event.recv (respEmpty 2),
       Event.send channelOpenFrameBytes, Event.recv (respEmpty 3),
       Event.send (queueDeclareFrameBytes cfg0), Event.recv (respEmpty 4)] ∧
    amqpHeader = [65, 77, 81, 80, 0, 0, 9, 1] ∧
    frameMethod (startOkFrameBytes cfg0) = (10, 11) ∧
    frameMethod (openFrameBytes cfg0) = (10, 40) ∧
    frameMethod channelOpenFrameBytes = (20, 10) ∧
    frameMethod (queueDeclareFrameBytes cfg0) = (50, 10) ∧
    ∀ b ∈ runSends (clientRun cfg0 respEmpty), frameMethod b ≠ (10, 31)) :=
  ⟨⟨by decide, by decide, by decide⟩,
    handshake_sequence cfg0 respEmpty (by decide) (by decide) (by decide)⟩

/-- C3: the SASL PLAIN response is `authzid ++ 0x00 ++ authcid ++ 0x00 ++
password`; in particular for authzid = authcid = "u" and password = "p" it is
the literal bytes `u\x00u\x00p`. -/
theorem build_plain_response_spec :
    (∀ a b p : List Nat,
      build_plain_response a b p = a ++ [0] ++ b ++ [0] ++ p) ∧
    build_plain_response [117] [117] [112] = [117, 0, 117, 0, 112] := by
  constructor
  · intro a b p
    simp [build_plain_response, joinSep, List.append_assoc]
  · decide

/-- C4 counterexample: with every response empty — bytes that parse as no
method frame at all — the script still performs all five sends, ending with
the queue.declare probe: it advances without validating any response. -/
theorem response_validation_counterexample :
    (runSends (clientRun cfg0 respEmpty)).length = 5 ∧
      frameMethod ((runSends (clientRun cfg0 respEmpty)).getD 4 []) = (50, 10) := by
  decide

/-- C4 (amended): after each send the script performs one blocking receive but
discards the bytes without extracting class_id/method_id or validating them;
it advances through every handshake step unconditionally, producing the same
trace shape whatever the responses contain. -/
theorem advances_unconditionally (c : Config) (r : Nat → List Nat)
    (hA : 2 * c.user.length + c.pass.length + 18 < 4294967296)
    (hv : c.vhost.length ≤ 255) (hq : c.queue.length ≤ 255) :
    (clientRun c r).events = fullTrace c r := by
  rw [clientRun_ok c r hA hv hq]
  rfl

/-- Witness for the amended C4 at the example configuration. -/
theorem advances_unconditionally_witness :
    (2 * cfg0.user.length + cfg0.pass.length + 18 < 4294967296 ∧
      cfg0.vhost.length ≤ 255 ∧ cfg0.queue.length ≤ 255) ∧
    (clientRun cfg0 respClosedAfterStartOk).events =
      fullTrace cfg0 respClosedAfterStartOk :=
  ⟨⟨by decide, by decide, by decide⟩,
    advances_unconditionally cfg0 respClosedAfterStartOk
      (by decide) (by decide) (by decide)⟩

/-- C5: the queue.declare frame the script sends carries class 50, method 10,
but its single packed flags byte is 0b00001000: under the AMQP packing order
passive/durable/exclusive/auto-delete/no-wait from the least significant bit,
bit 0 (passive) is clear and bit 3 (auto-delete) is set — contradicting the
script's own `# passive flag` comment. -/
theorem queue_declare_flags_byte :
    frameMethod (queueDeclareFrameBytes cfg0) = (50, 10) ∧
    (queueDeclareMethodBytes cfg0).getLast? = some 0b00001000 ∧
    Nat.testBit 0b00001000 0 = false ∧
    Nat.testBit 0b00001000 3 = true := by
  refine ⟨frameMethod_qdecl cfg0, ?_, by decide, by decide⟩
  decide

/-- C6: decoding the bytes produced by the frame encoder yields back a frame
with the same type, channel and payload, for every valid input. -/
theorem decode_encode_roundtrip (ft ch : Nat) (p : List Nat) (h1 : ft < 256)
    (h2 : ch < 65536) (h3 : p.length < 4294967296) :
    send_frame ft ch p = some (frameBytes ft ch p) ∧
      decode (frameBytes ft ch p) = DecodeResult.frame ft ch p :=
  ⟨send_frame_eq ft ch p h1 h2 h3, decode_frameBytes ft ch p h3⟩

/-- Witness for C6 at frame type 1, channel 0, payload `[42]`. -/
theorem decode_encode_roundtrip_witness :
    (1 < 256 ∧ 0 < 65536 ∧ ([42] : List Nat).length < 4294967296) ∧
    (send_frame 1 0 [42] = some (frameBytes 1 0 [42]) ∧
      decode (frameBytes 1 0 [42]) = DecodeResult.frame 1 0 [42]) :=
  ⟨⟨by decide, by decide, by decide⟩,
    decode_encode_roundtrip 1 0 [42] (by decide) (by decide) (by decide)⟩

/-- C7: `decode` is a total function into
Frame / NeedMoreBytes / MalformedFrame: on any input with fewer bytes than the
declared length it returns NeedMoreBytes (never a frame), and on a complete
input whose terminator byte is not 0xCE it returns MalformedFrame. -/
theorem decode_total (bs : List Nat) :
    (bs.length < declaredLen bs + 8 → decode bs = DecodeResult.needMoreBytes) ∧
    (declaredLen bs + 8 ≤ bs.length →
      bs.getD (declaredLen bs + 7) 0 ≠ 0xCE →
      decode bs = DecodeResult.malformedFrame) ∧
    (decode bs = DecodeResult.needMoreBytes ∨
      decode bs = DecodeResult.malformedFrame ∨
      ∃ t c p, decode bs = DecodeResult.frame t c p) := by
  refine ⟨?_, ?_, ?_⟩
  · intro h
    rcases Nat.lt_or_ge bs.length 7 with h7 | h7
    · rw [decode, if_pos h7]
    · have h7' : ¬ bs.length < 7 := by omega
      rw [decode, if_neg h7', if_pos h]
  · intro h1 h2
    have h7 : ¬ bs.length < 7 := by omega
    have hnm : ¬ bs.length < declaredLen bs + 8 := by omega
    rw [decode, if_neg h7, if_neg hnm, if_pos h2]
  · rw [decode]
    split_ifs
    · exact Or.inl rfl
    · exact Or.inl rfl
    · exact Or.inr (Or.inl rfl)
    · exact Or.inr (Or.inr ⟨_, _, _, rfl⟩)

/-- Witness for C7: a 6-byte input yields NeedMoreBytes; a complete 8-byte
input with terminator 0 yields MalformedFrame. -/
theorem decode_total_witness :
    (([1, 0, 0, 0, 0, 0] : List Nat).length < declaredLen [1, 0, 0, 0, 0, 0] + 8 ∧
      decode [1, 0, 0, 0, 0, 0] = DecodeResult.needMoreBytes) ∧
    (declaredLen [1, 0, 0, 0, 0, 0, 0, 0] + 8 ≤
        ([1, 0, 0, 0, 0, 0, 0, 0] : List Nat).length ∧
      ([1, 0, 0, 0, 0, 0, 0, 0] : List Nat).getD
        (declaredLen [1, 0, 0, 0, 0, 0, 0, 0] + 7) 0 ≠ 0xCE ∧
      decode [1, 0, 0, 0, 0, 0, 0, 0] = DecodeResult.malformedFrame) :=
  ⟨⟨by decide, (decode_total [1, 0, 0, 0, 0, 0]).1 (by decide)⟩,
    ⟨by decide, by decide,
      (decode_total [1, 0, 0, 0, 0, 0, 0, 0]).2.1 (by decide) (by decide)⟩⟩

/-- C8 counterexample: when the socket yields nothing after start-ok (the
server closed), the run still completes as `ok` — the script has no typed
failure value at all — and it proceeds to send connection.open anyway. -/
theorem auth_close_counterexample :
    clientRun cfg0 respClosedAfterStartOk =
      RunResult.ok (fullTrace cfg0 respClosedAfterStartOk) ∧
    Event.send (openFrameBytes cfg0) ∈
      (clientRun cfg0 respClosedAfterStartOk).events := by
  decide

/-- C8 (amended): if the server closes the socket after receiving start-ok,
the subsequent `recv` returns empty bytes which the script ignores: no typed
failure such as AuthFailed is surfaced, and the script proceeds to send
connection.open and every later frame as if the handshake were succeeding. -/
theorem auth_close_ignored (c : Config) (r : Nat → List Nat)
    (hclosed : r 1 = [])
    (hA : 2 * c.user.length + c.pass.length + 18 < 4294967296)
    (hv : c.vhost.length ≤ 255) (hq : c.queue.length ≤ 255) :
    (clientRun c r).events = fullTrace c r ∧
      Event.send (openFrameBytes c) ∈ (clientRun c r).events := by
  rw [clientRun_ok c r hA hv hq]
  refine ⟨rfl, ?_⟩
  simp [RunResult.events, fullTrace]

/-- Witness for the amended C8 at the example configuration. -/
theorem auth_close_ignored_witness :
    (respClosedAfterStartOk 1 = [] ∧
      2 * cfg0.user.length + cfg0.pass.length + 18 < 4294967296 ∧
      cfg0.vhost.length ≤ 255 ∧ cfg0.queue.length ≤ 255) ∧
    ((clientRun cfg0 respClosedAfterStartOk).events =
        fullTrace cfg0 respClosedAfterStartOk ∧
      Event.send (openFrameBytes cfg0) ∈
        (clientRun cfg0 respClosedAfterStartOk).events) :=
  ⟨⟨by decide, by decide, by decide, by decide⟩,
    auth_close_ignored cfg0 respClosedAfterStartOk
      (by decide) (by decide) (by decide) (by decide)⟩

/-- C9: the byte strings the script sends are a fixed function of the
configuration alone: two runs whose servers return different bytes on every
receive still send the identical sequence of frames. -/
theorem sends_independent_of_responses (c : Config) (r1 r2 : Nat → List Nat)
    (hdiff : ∀ i, i < 5 → r1 i ≠ r2 i) :
    runSends (clientRun c r1) = runSends (clientRun c r2) := by
  rw [runSends_eq_pure, runSends_eq_pure]

/-- Witness for C9: two everywhere-different response oracles. -/
theorem sends_independent_of_responses_witness :
    (∀ i, i < 5 → (fun _ => ([0] : List Nat)) i ≠ (fun _ => ([1] : List Nat)) i) ∧
    runSends (clientRun cfg0 (fun _ => [0])) =
      runSends (clientRun cfg0 (fun _ => [1])) :=
  ⟨fun i _ => by simp,
    sends_independent_of_responses cfg0 (fun _ => [0]) (fun _ => [1])
      (fun i _ => by simp)⟩

/-- C10: the VHOST and QUEUE fields are encoded with a 1-byte length field
via `struct.pack('!B', ...)`: a value longer than 255 bytes makes the pack
raise before the frame is sent — the run aborts with no truncated frame on the
wire — while values of at most 255 bytes always pack successfully. -/
theorem vhost_queue_length_guard (c : Config) (r : Nat → List Nat)
    (hA : 2 * c.user.length + c.pass.length + 18 < 4294967296) :
    (255 < c.vhost.length →
      clientRun c r = RunResult.err
        [Event.send amqpHeader, Event.recv (r 0),
         Event.send (startOkFrameBytes c), Event.recv (r 1)]) ∧
    (c.vhost.length ≤ 255 → 255 < c.queue.length →
      clientRun c r = RunResult.err
        [Event.send amqpHeader, Event.recv (r 0),
         Event.send (startOkFrameBytes c), Event.recv (r 1),
         Event.send (openFrameBytes c), Event.recv (r 2),
         Event.send channelOpenFrameBytes, Event.recv (r 3)]) ∧
    (c.vhost.length ≤ 255 → openFrame c = some (openFrameBytes c)) ∧
    (c.queue.length ≤ 255 →
      queueDeclareFrame c = some (queueDeclareFrameBytes c)) := by
  refine ⟨?_, ?_, openFrame_eq c, queueDeclareFrame_eq c⟩
  · intro hv'
    have hno : openFrame c = none := by
      rw [openFrame, packB, if_neg (by omega)]
    rw [clientRun, startOkFrame_eq c hA, hno]
    rfl
  · intro hv hq'
    have hno : queueDeclareFrame c = none := by
      rw [queueDeclareFrame, packB, if_neg (by omega)]
    rw [clientRun, startOkFrame_eq c hA, openFrame_eq c hv, channelOpenFrame_eq,
      hno]
    rfl

set_option maxRecDepth 100000 in
/-- Witness for C10: a 256-byte vhost aborts the run after four events; the
example configuration's one-byte queue name packs successfully. -/
theorem vhost_queue_length_guard_witness :
    (2 * cfgBigVhost.user.length + cfgBigVhost.pass.length + 18 < 4294967296 ∧
      255 < cfgBigVhost.vhost.length) ∧
    clientRun cfgBigVhost respEmpty = RunResult.err
      [Event.send amqpHeader, Event.recv (respEmpty 0),
       Event.send (startOkFrameBytes cfgBigVhost), Event.recv (respEmpty 1)] ∧
    (cfg0.queue.length ≤ 255 ∧
      queueDeclareFrame cfg0 = some (queueDeclareFrameBytes cfg0)) :=
  ⟨⟨by decide, by decide⟩,
    (vhost_queue_length_guard cfgBigVhost respEmpty (by decide)).1 (by decide),
    ⟨by decide,
      (vhost_queue_length_guard cfg0 respEmpty (by decide)).2.2.2 (by decide)⟩⟩

end TestRabbit
